import Mathlib

/-!
Verification of the GCE docker-hosts driver (gce.go / compute_util.go).

The driver manages one VM instance plus one persistent disk on Google
Compute Engine.  We embed the lifecycle controller shallowly:

* the remote provider is a `World` record holding the current disk, the
  current instance, fault-injection flags for the mutating calls, and a
  `trace` of every remote API call issued so far;
* every Go function of the driver becomes a Lean function
  `World → result × World`, translated statement by statement;
* the `waitForOp` poll loop is embedded separately and faithfully as a
  recursion over the list of successive poll responses
  (`waitForOpTr`), since its claims are about poll counts.

Machine strings (instance statuses, operation statuses) stay `String`,
exactly as in the source.
-/

/-- The logical host states of the `hosts/state` package that the GCE
driver uses: `state.None`, `state.Starting`, `state.Running`,
`state.Stopped`. -/
inductive HState where
  | None
  | Starting
  | Running
  | Stopped
deriving DecidableEq, Repr

/-- A GCE persistent disk (`raw.Disk`): only its name matters here. -/
structure Disk where
  name : String
deriving DecidableEq, Repr

/-- A GCE instance (`raw.Instance`).  `natIP` flattens
`NetworkInterfaces[0].AccessConfigs[0].NatIP`, `fingerprint` flattens
`Metadata.Fingerprint`, and `sshKeys` holds the value of the `sshKeys`
metadata item. -/
structure Instance where
  status : String
  natIP : String
  fingerprint : String
  sshKeys : String
deriving DecidableEq, Repr

/-- A pending GCE operation handle (`raw.Operation`): identified by name. -/
structure Op where
  name : String
deriving DecidableEq, Repr

/-- One entry of an operation's error list (`op.Error.Errors[i]`). -/
structure OperationError where
  code : String
deriving DecidableEq, Repr

/-- The failures the embedded driver can produce or propagate. -/
inductive Err where
  | notFound
  | alreadyExists (name : String)
  | operationFailed (e : OperationError)
  | errorsIndexPanic
  | transport (what : String)
  | commandError
  | readFileError
  | genKeyError
deriving DecidableEq, Repr

/-- The remote API calls the driver can issue; `trace` records them in
order.  SSH traffic is not a remote API call and is not traced. -/
inductive Call where
  | disksGet
  | disksInsert
  | disksDelete
  | instancesGet
  | instancesInsert
  | instancesDelete
  | instancesSetMetadata
  | zoneOperationsGet
deriving DecidableEq, Repr

/-- Whether a call mutates remote state (inserts, deletes, metadata
writes), as opposed to a read. -/
def Call.isMutating : Call → Bool
  | .disksGet => false
  | .disksInsert => true
  | .disksDelete => true
  | .instancesGet => false
  | .instancesInsert => true
  | .instancesDelete => true
  | .instancesSetMetadata => true
  | .zoneOperationsGet => false

/-- Fault-injection flags: `true` makes the corresponding remote or local
step fail. -/
structure Faults where
  insertDiskFail : Bool
  deleteDiskFail : Bool
  insertInstanceFail : Bool
  deleteInstanceFail : Bool
  setMetadataFail : Bool
  genKeyFail : Bool
deriving DecidableEq, Repr

/-- The provider plus ambient-environment state threaded through every
driver call. -/
structure World where
  instanceName : String
  userName : String
  disk : Option Disk
  inst : Option Instance
  faults : Faults
  sshOk : Bool
  pubKey : Option String
  failingCmds : List String
  newIP : String
  newFingerprint : String
  trace : List Call
deriving DecidableEq, Repr

/-- Append one remote API call to the world's trace. -/
def World.log (w : World) (c : Call) : World :=
  { w with trace := w.trace ++ [c] }

@[simp] theorem World.log_disk (w : World) (c : Call) : (w.log c).disk = w.disk := rfl

@[simp] theorem World.log_inst (w : World) (c : Call) : (w.log c).inst = w.inst := rfl

@[simp] theorem World.log_faults (w : World) (c : Call) : (w.log c).faults = w.faults := rfl

@[simp] theorem World.log_sshOk (w : World) (c : Call) : (w.log c).sshOk = w.sshOk := rfl

@[simp] theorem World.log_pubKey (w : World) (c : Call) : (w.log c).pubKey = w.pubKey := rfl

@[simp] theorem World.log_failingCmds (w : World) (c : Call) :
    (w.log c).failingCmds = w.failingCmds := rfl

@[simp] theorem World.log_instanceName (w : World) (c : Call) :
    (w.log c).instanceName = w.instanceName := rfl

@[simp] theorem World.log_userName (w : World) (c : Call) :
    (w.log c).userName = w.userName := rfl

@[simp] theorem World.log_newIP (w : World) (c : Call) : (w.log c).newIP = w.newIP := rfl

@[simp] theorem World.log_newFingerprint (w : World) (c : Call) :
    (w.log c).newFingerprint = w.newFingerprint := rfl

@[simp] theorem World.log_trace (w : World) (c : Call) :
    (w.log c).trace = w.trace ++ [c] := rfl

/-! ## The raw client (`c.service.*.Do()`), modelled

The google-api client returns a `(value, error)` pair from every `Do()`;
a 404 on a lookup comes back as `(nil, googleapi error)`, never as
`(nil, nil)` — the repository's own call sites (`instance, _ :=
c.instance()`) and its test file (`d, err := ...Get(...).Do(); if d ==
nil`) rely on exactly that shape.  Mutating calls either fail (fault
flag) or take effect and return an operation handle. -/

/-- `c.service.Disks.Get(project, zone, diskName).Do()`. -/
def disksGet (w : World) : (Option Disk × Option Err) × World :=
  let w := w.log .disksGet
  match w.disk with
  | some d => ((some d, none), w)
  | none => ((none, some .notFound), w)

/-- `c.service.Instances.Get(project, zone, instanceName).Do()`. -/
def instancesGet (w : World) : (Option Instance × Option Err) × World :=
  let w := w.log .instancesGet
  match w.inst with
  | some i => ((some i, none), w)
  | none => ((none, some .notFound), w)

/-- `c.service.Disks.Insert(project, zone, disk).SourceImage(image).Do()`. -/
def disksInsert (w : World) : Except Err Op × World :=
  let w := w.log .disksInsert
  if w.faults.insertDiskFail then (.error (.transport "disks insert"), w)
  else (.ok ⟨"op-disks-insert"⟩, { w with disk := some ⟨w.instanceName ++ "-disk"⟩ })

/-- `c.service.Disks.Delete(project, zone, diskName).Do()`: deleting an
absent disk is a provider error. -/
def disksDelete (w : World) : Except Err Op × World :=
  let w := w.log .disksDelete
  if w.faults.deleteDiskFail then (.error (.transport "disks delete"), w)
  else
    match w.disk with
    | none => (.error .notFound, w)
    | some _ => (.ok ⟨"op-disks-delete"⟩, { w with disk := none })

/-- `c.service.Instances.Insert(project, zone, instance).Do()`: on
success the provider brings up a fresh `RUNNING` instance booted from
the persistent disk. -/
def instancesInsert (w : World) : Except Err Op × World :=
  let w := w.log .instancesInsert
  if w.faults.insertInstanceFail then (.error (.transport "instances insert"), w)
  else
    (.ok ⟨"op-instances-insert"⟩,
      { w with inst := some ⟨"RUNNING", w.newIP, w.newFingerprint, ""⟩ })

/-- `c.service.Instances.Delete(project, zone, instanceName).Do()`:
deleting an absent instance is a provider error. -/
def instancesDelete (w : World) : Except Err Op × World :=
  let w := w.log .instancesDelete
  if w.faults.deleteInstanceFail then (.error (.transport "instances delete"), w)
  else
    match w.inst with
    | none => (.error .notFound, w)
    | some _ => (.ok ⟨"op-instances-delete"⟩, { w with inst := none })

/-- `c.service.Instances.SetMetadata(project, zone, instanceName,
metadata).Do()` with the single `sshKeys` item. -/
def instancesSetMetadata (_fingerprint value : String) (w : World) :
    Except Err Op × World :=
  let w := w.log .instancesSetMetadata
  if w.faults.setMetadataFail then (.error (.transport "set metadata"), w)
  else
    (.ok ⟨"op-set-metadata"⟩,
      { w with inst := w.inst.map fun i => { i with sshKeys := value } })

/-! ## The operation waiter (`waitForOp`), embedded over its poll stream

The Go loop polls `ZoneOperations.Get` once per second until the
operation reports `DONE`; only then is `op.Error` inspected, failing
with the first entry of `op.Error.Errors`.  A transport failure of the
poll itself is returned at once.  We embed the loop as a recursion over
the list of successive poll responses; the second component counts the
polls performed. -/

/-- One response of the `ZoneOperations.Get(...).Do()` poll: either the
operation's (status, optional error list), or a transport failure of
the query itself. -/
inductive PollResult where
  | ok (status : String) (opError : Option (List OperationError))
  | fail (e : Err)
deriving DecidableEq, Repr

/-- The `waitForOp` loop over a stream of poll responses.  Returns
`(outcome, pollsPerformed)`; the outcome is `none` when the stream was
exhausted before a terminal answer (the Go loop would still be
polling).  `errorsIndexPanic` marks the `op.Error.Errors[0]` index on
an empty error list, where the Go code would panic. -/
def waitForOpTr : List PollResult → Option (Except Err Unit) × Nat
  | [] => (none, 0)
  | PollResult.fail e :: _ => (some (.error e), 1)
  | PollResult.ok status opError :: rest =>
    if status = "DONE" then
      match opError with
      | some (e :: _) => (some (.error (.operationFailed e)), 1)
      | some [] => (some (.error .errorsIndexPanic), 1)
      | none => (some (.ok ()), 1)
    else
      let (r, n) := waitForOpTr rest
      (r, n + 1)

/-! ## ComputeUtil (compute_util.go) at the world level

Each Go method becomes `World → result × World`, following the source
statement by statement.  The in-flight `waitForOp` round trips of the
lifecycle methods are modelled by `ComputeUtil.waitForOpW`: an accepted
mutating call's operation completes successfully after one poll, and
every injected failure of a mutating step is raised at the issuing
call.  The poll loop itself is verified separately via `waitForOpTr`. -/

namespace ComputeUtil

/-- `c.diskName()`: the disk name derived from the instance name. -/
def diskName (w : World) : String :=
  w.instanceName ++ "-disk"

/-- `c.disk()`: returns `c.service.Disks.Get(...).Do()` verbatim —
no translation of the provider's result. -/
def disk (w : World) : (Option Disk × Option Err) × World :=
  disksGet w

/-- `c.instance()`: returns `c.service.Instances.Get(...).Do()`
verbatim — no translation of the provider's result. -/
def instance' (w : World) : (Option Instance × Option Err) × World :=
  instancesGet w

/-- World-level stand-in for `c.waitForOp(op.Name)` inside the
lifecycle methods: one `ZoneOperations.Get` poll, reporting success. -/
def waitForOpW (_name : String) (w : World) : Except Err Unit × World :=
  (.ok (), w.log .zoneOperationsGet)

/-- `c.createDisk()`: insert the disk, then wait for the operation. -/
def createDisk (w : World) : Except Err Unit × World :=
  match disksInsert w with
  | (.error e, w) => (.error e, w)
  | (.ok op, w) => waitForOpW op.name w

/-- `c.deleteDisk()`: delete the disk, then wait for the operation. -/
def deleteDisk (w : World) : Except Err Unit × World :=
  match disksDelete w with
  | (.error e, w) => (.error e, w)
  | (.ok op, w) => waitForOpW op.name w

/-- `c.deleteInstance()`: delete the instance, then wait for the
operation. -/
def deleteInstance (w : World) : Except Err Unit × World :=
  match instancesDelete w with
  | (.error e, w) => (.error e, w)
  | (.ok op, w) => waitForOpW op.name w

/-- `c.waitForSSH(ip)`: `ssh.WaitForTCP(ip + ":22")`.  Not a remote API
call; succeeds exactly when the world says the host is reachable. -/
def waitForSSH (_ip : String) (w : World) : Except Err Unit × World :=
  (if w.sshOk then .ok () else .error (.transport "wait tcp"), w)

/-- `ioutil.ReadFile(publicSSHKeyPath)`: the world holds the file's
contents, or `none` when the read fails. -/
def readPubKey (w : World) : Except Err String × World :=
  match w.pubKey with
  | some k => (.ok k, w)
  | none => (.error .readFileError, w)

/-- `c.executeCommands(commands, ip, sshKeyPath)`: run each remote
command in order; the first non-zero exit aborts the sequence. -/
def executeCommands (commands : List String) (w : World) :
    Except Err Unit × World :=
  match commands with
  | [] => (.ok (), w)
  | cmd :: rest =>
    if w.failingCmds.contains cmd then (.error .commandError, w)
    else executeCommands rest w

/-- `c.configureInstance(ip, sshKeyPath)` with its literal command
list. -/
def configureInstance (_ip : String) (w : World) : Except Err Unit × World :=
  executeCommands
    ["sudo sed -i \x27s/DOCKER_OPTS=.*/DOCKER_OPTS=\"-H 0.0.0.0:2375\"/g\x27 /etc/default/docker",
     "sudo service docker restart"] w

/-- `c.updateDocker(ip, sshKeyPath)` with its literal command list. -/
def updateDocker (_ip : String) (w : World) : Except Err Unit × World :=
  executeCommands
    ["sudo service docker stop",
     "sleep 10",
     "sudo wget https://get.docker.com/builds/Linux/x86_64/docker-latest -O /usr/bin/docker && sudo chmod +x /usr/bin/docker",
     "sudo service docker start"] w

/-- `c.createInstance(publicSSHKeyPath, sshKeyPath, machineType)`,
statement by statement: look up the disk (its lookup error is unused in
the source), create it when absent, insert the instance, wait, re-fetch
the instance, wait for SSH **discarding the result**, read the public
key, push it via `SetMetadata` with the observed fingerprint, wait,
then configure and update docker over SSH.  The `(none, none)` lookup
shape cannot be produced by the modelled client (the Go code would
nil-dereference there). -/
def createInstance (w : World) : Except Err Unit × World :=
  let ((dsk, _), w) := disk w
  let diskStep : Except Err Unit × World :=
    match dsk with
    | none => createDisk w
    | some _ => (.ok (), w)
  match diskStep with
  | (.error e, w) => (.error e, w)
  | (.ok _, w) =>
  match instancesInsert w with
  | (.error e, w) => (.error e, w)
  | (.ok op, w) =>
  match waitForOpW op.name w with
  | (.error e, w) => (.error e, w)
  | (.ok _, w) =>
  match instance' w with
  | ((_, some e), w) => (.error e, w)
  | ((none, none), w) => (.error (.transport "nil instance"), w)
  | ((some i, none), w) =>
  let ip := i.natIP
  let (_, w) := waitForSSH ip w
  match readPubKey w with
  | (.error e, w) => (.error e, w)
  | (.ok sshKey, w) =>
  match instancesSetMetadata i.fingerprint (w.userName ++ ":" ++ sshKey ++ "\n") w with
  | (.error e, w) => (.error e, w)
  | (.ok op2, w) =>
  match waitForOpW op2.name w with
  | (.error e, w) => (.error e, w)
  | (.ok _, w) =>
  match configureInstance ip w with
  | (.error e, w) => (.error e, w)
  | (.ok _, w) => updateDocker ip w

end ComputeUtil

/-! ## Driver (gce.go) at the world level

`newComputeUtil` only builds URLs from the configuration and cannot
fail in the model, so the `if err != nil` guards after it are dropped. -/

namespace Driver

/-- `ssh.GenerateSSHKey(driver.sshKeyPath)`: local key generation,
fallible, no remote API call. -/
def generateSSHKey (w : World) : Except Err Unit × World :=
  (if w.faults.genKeyFail then .error .genKeyError else .ok (), w)

/-- The `switch instance.Status` of `Driver.GetState`, including the
fall-through `return state.None, nil` for unrecognized statuses. -/
def instanceStateOf (status : String) : HState :=
  match status with
  | "PROVISIONING" => .Starting
  | "STAGING" => .Starting
  | "RUNNING" => .Running
  | "STOPPING" => .Stopped
  | "STOPPED" => .Stopped
  | "TERMINATED" => .Stopped
  | _ => .None

/-- `Driver.GetState`: look up disk and instance discarding their
lookup errors, then derive the logical state. -/
def GetState (w : World) : HState × World :=
  let ((dsk, _), w) := ComputeUtil.disk w
  let ((ins, _), w) := ComputeUtil.instance' w
  match ins, dsk with
  | none, none => (.None, w)
  | none, some _ => (.Stopped, w)
  | some i, _ => (instanceStateOf i.status, w)

/-- `Driver.Create`: fail when the instance already exists (its lookup
error is discarded), else generate the SSH key and run
`createInstance`. -/
def Create (w : World) : Except Err Unit × World :=
  let ((ins, _), w) := ComputeUtil.instance' w
  match ins with
  | some _ => (.error (.alreadyExists w.instanceName), w)
  | none =>
    match generateSSHKey w with
    | (.error e, w) => (.error e, w)
    | (.ok _, w) => ComputeUtil.createInstance w

/-- `Driver.Start`: `createInstance` against the existing disk. -/
def Start (w : World) : Except Err Unit × World :=
  ComputeUtil.createInstance w

/-- `Driver.Stop`: delete the instance, keep the disk. -/
def Stop (w : World) : Except Err Unit × World :=
  ComputeUtil.deleteInstance w

/-- `Driver.Remove`: derive the state; when `Running`, delete the
instance **logging and discarding any failure** (`log.Errorf`), then
always delete the disk and return that outcome. -/
def Remove (w : World) : Except Err Unit × World :=
  let (s, w) := GetState w
  let w := if s = HState.Running then (ComputeUtil.deleteInstance w).2 else w
  ComputeUtil.deleteDisk w

/-- `Driver.Restart`: delete the instance (propagating failure), then
recreate it; the disk is untouched. -/
def Restart (w : World) : Except Err Unit × World :=
  match ComputeUtil.deleteInstance w with
  | (.error e, w) => (.error e, w)
  | (.ok _, w) => ComputeUtil.createInstance w

/-- `Driver.Kill`: alias for `Stop`. -/
def Kill (w : World) : Except Err Unit × World :=
  Stop w

end Driver

/-! ## Spec-side definitions and concrete worlds -/

/-- Modelled from the spec: the §4.3 state-derivation table, written
from the spec's words to compare with the driver's `GetState`. -/
def specTableState (diskPresent : Bool) (instStatus : Option String) : HState :=
  match instStatus with
  | none => if diskPresent then HState.Stopped else HState.None
  | some s =>
    if s = "PROVISIONING" ∨ s = "STAGING" then HState.Starting
    else if s = "RUNNING" then HState.Running
    else if s = "STOPPING" ∨ s = "STOPPED" ∨ s = "TERMINATED" then HState.Stopped
    else HState.None

/-- All fault flags off. -/
def noFaults : Faults := ⟨false, false, false, false, false, false⟩

/-- A healthy environment with no disk and no instance. -/
def baseWorld : World :=
  ⟨"docker-host", "dev", none, none, noFaults, true, some "ssh-rsa AAAA", [],
   "104.197.0.2", "fp-2", []⟩

/-- The driver's switch over instance statuses agrees with the spec
table whenever an instance is present (disk presence is then ignored
by both). -/
theorem instanceStateOf_eq_table (b : Bool) (s : String) :
    Driver.instanceStateOf s = specTableState b (some s) := by
  rw [Driver.instanceStateOf.eq_def]
  split <;> simp_all [specTableState]

/-- **C1**: for every combination of disk presence, instance presence
and instance status string, `GetState` returns exactly the logical
state of the §4.3 table — `None`/`Stopped` when no instance exists
(by disk absence/presence), `Starting` for PROVISIONING and STAGING,
`Running` for RUNNING, `Stopped` for STOPPING/STOPPED/TERMINATED, and
`None` for any unrecognized status, totally and regardless of disk
presence once an instance exists. -/
theorem c1_getState_matches_table (w : World) :
    (Driver.GetState w).1
      = specTableState w.disk.isSome (w.inst.map Instance.status) := by
  obtain ⟨nm, un, dsk, ins, flt, ssh, pk, fc, nip, nfp, tr⟩ := w
  cases dsk <;> cases ins <;>
    simp [Driver.GetState, ComputeUtil.disk, ComputeUtil.instance', disksGet,
      instancesGet, specTableState] <;>
    exact instanceStateOf_eq_table true _

/-- **C4**: a source polling RUNNING, RUNNING, then DONE with no errors
makes the waiter succeed after exactly three polls; a source polling
DONE with a non-empty error list makes it fail with `OperationFailed`
wrapping the first error after exactly one poll, with no further
polls. -/
theorem c4_waiter_poll_counts (rest : List PollResult) (e : OperationError)
    (es : List OperationError) :
    waitForOpTr ([.ok "RUNNING" none, .ok "RUNNING" none, .ok "DONE" none] ++ rest)
      = (some (.ok ()), 3) ∧
    waitForOpTr (.ok "DONE" (some (e :: es)) :: rest)
      = (some (.error (.operationFailed e)), 1) := by
  constructor <;> simp [waitForOpTr]

/-- **C5, counterexample**: a first poll reporting status RUNNING with a
non-empty error list does *not* make the waiter fail immediately — it
keeps polling and here returns success after two polls, instead of the
claimed immediate `OperationFailed` after one poll. -/
theorem c5_counterexample :
    waitForOpTr [.ok "RUNNING" (some [⟨"boom"⟩]), .ok "DONE" none]
      = (some (.ok ()), 2) ∧
    ((some (.ok ()), 2) : Option (Except Err Unit) × Nat)
      ≠ (some (.error (.operationFailed ⟨"boom"⟩)), 1) := by
  refine ⟨by simp [waitForOpTr], by simp⟩

/-- **C5, amended**: the waiter inspects the operation's error list only
when the reported status is DONE: a transport failure of the poll
itself is propagated at once without retrying; DONE with errors fails
immediately with `OperationFailed` wrapping the first error; DONE
without errors succeeds immediately; and a PENDING or RUNNING poll
continues the loop regardless of any attached errors. -/
theorem c5_amended_error_check_only_on_done (rest : List PollResult) (e : Err)
    (er : OperationError) (es : List OperationError)
    (errs : Option (List OperationError)) :
    waitForOpTr (.fail e :: rest) = (some (.error e), 1) ∧
    waitForOpTr (.ok "DONE" (some (er :: es)) :: rest)
      = (some (.error (.operationFailed er)), 1) ∧
    waitForOpTr (.ok "DONE" none :: rest) = (some (.ok ()), 1) ∧
    waitForOpTr (.ok "RUNNING" errs :: rest)
      = ((waitForOpTr rest).1, (waitForOpTr rest).2 + 1) ∧
    waitForOpTr (.ok "PENDING" errs :: rest)
      = ((waitForOpTr rest).1, (waitForOpTr rest).2 + 1) := by
  refine ⟨by simp [waitForOpTr], by simp [waitForOpTr], by simp [waitForOpTr], ?_, ?_⟩ <;>
    simp [waitForOpTr]

/-- **C6, counterexample**: the accessors forward the raw client result
verbatim, so a provider "not found" outcome surfaces as
`(none, notFound)` — absence *with* an error — not as the claimed
`(nil, nil)` pair. -/
theorem c6_counterexample :
    (ComputeUtil.disk baseWorld).1 = (none, some Err.notFound) ∧
    (ComputeUtil.instance' baseWorld).1 = (none, some Err.notFound) ∧
    ((none, some Err.notFound) : Option Disk × Option Err) ≠ (none, none) ∧
    ((none, some Err.notFound) : Option Instance × Option Err) ≠ (none, none) := by
  refine ⟨rfl, rfl, by decide, by decide⟩

/-- **C6, amended**: the accessors return the provider's `(value,
error)` pair unchanged — a present resource as `(some r, none)`, an
absent one as `(none, notFound)`; nothing is translated, and callers
obtain absence-as-data by discarding the error component and testing
the value against nil, as every call site does. -/
theorem c6_amended_accessors_forward_verbatim (w : World) :
    ComputeUtil.disk w = disksGet w ∧
    ComputeUtil.instance' w = instancesGet w ∧
    (w.disk = none → (ComputeUtil.disk w).1 = (none, some Err.notFound)) ∧
    (∀ d, w.disk = some d → (ComputeUtil.disk w).1 = (some d, none)) ∧
    (w.inst = none → (ComputeUtil.instance' w).1 = (none, some Err.notFound)) ∧
    (∀ i, w.inst = some i → (ComputeUtil.instance' w).1 = (some i, none)) := by
  refine ⟨rfl, rfl, ?_, ?_, ?_, ?_⟩ <;>
    intros <;> simp_all [ComputeUtil.disk, ComputeUtil.instance', disksGet, instancesGet]

/-- Closed instantiation of the amended C6 statement at `baseWorld`. -/
theorem c6_amended_witness :
    baseWorld.disk = none ∧ baseWorld.inst = none ∧
    (ComputeUtil.disk baseWorld).1 = (none, some Err.notFound) ∧
    (ComputeUtil.instance' baseWorld).1 = (none, some Err.notFound) :=
  ⟨rfl, rfl,
    (c6_amended_accessors_forward_verbatim baseWorld).2.2.1 rfl,
    (c6_amended_accessors_forward_verbatim baseWorld).2.2.2.2.1 rfl⟩

/-- A serviceable disk named after the default instance name. -/
def diskA : Disk := ⟨"docker-host-disk"⟩

/-- A running instance. -/
def instRunning : Instance := ⟨"RUNNING", "104.197.0.1", "fp-1", ""⟩

/-- An instance the provider reports as TERMINATED. -/
def instTerminated : Instance := ⟨"TERMINATED", "104.197.0.1", "fp-1", ""⟩

/-- A healthy world with a running instance and its disk. -/
def worldRunning : World := { baseWorld with disk := some diskA, inst := some instRunning }

/-- A world with a disk but no instance: a stopped host. -/
def worldStopped : World := { baseWorld with disk := some diskA }

/-- A world whose instance is TERMINATED while its disk still exists. -/
def worldTerm : World := { baseWorld with disk := some diskA, inst := some instTerminated }

/-- `executeCommands` only runs SSH commands: it never changes the
world (no remote API call, no provider state change). -/
theorem executeCommands_world (cmds : List String) (w : World) :
    (ComputeUtil.executeCommands cmds w).2 = w := by
  induction cmds with
  | nil => rfl
  | cons c rest ih =>
    simp only [ComputeUtil.executeCommands]
    split
    · rfl
    · exact ih

/-- With no failing remote commands, `executeCommands` succeeds. -/
theorem executeCommands_ok (cmds : List String) (w : World)
    (h : w.failingCmds = []) :
    (ComputeUtil.executeCommands cmds w).1 = .ok () := by
  induction cmds with
  | nil => rfl
  | cons c rest ih => simp [ComputeUtil.executeCommands, h, ih]

/-- **C2**: `Create` while an instance with the configured name already
exists fails with the already-exists precondition error, and the only
remote API call it issues is the instance lookup — in particular no
disk insert, no instance insert, no metadata set and no delete. -/
theorem c2_create_with_existing_instance (w : World) (i : Instance)
    (h : w.inst = some i) :
    (Driver.Create w).1 = .error (.alreadyExists w.instanceName) ∧
    (Driver.Create w).2.trace = w.trace ++ [Call.instancesGet] ∧
    ((Driver.Create w).2.trace.drop w.trace.length).filter
      (fun c => c.isMutating) = [] := by
  obtain ⟨nm, un, dsk, ins, flt, ssh, pk, fc, nip, nfp, tr⟩ := w
  subst h
  simp [Driver.Create, ComputeUtil.instance', instancesGet, Call.isMutating,
    List.drop_left]

/-- Closed instantiation of C2 at a world holding a running instance. -/
theorem c2_witness :
    worldRunning.inst = some instRunning ∧
    (Driver.Create worldRunning).1
      = .error (.alreadyExists worldRunning.instanceName) :=
  ⟨rfl, (c2_create_with_existing_instance worldRunning instRunning rfl).1⟩

/-- **C3, counterexample**: a host whose derived state is `Stopped`
because the provider reports its instance as TERMINATED (disk still
present) is removed successfully, yet `GetState` afterwards still
returns `Stopped` — not the claimed `None` — because `Remove` only
deletes the instance when the derived state is `Running`, and the
TERMINATED instance survives the disk deletion. -/
theorem c3_counterexample :
    (Driver.GetState worldTerm).1 = HState.Stopped ∧
    (Driver.Remove worldTerm).1 = .ok () ∧
    (Driver.GetState (Driver.Remove worldTerm).2).1 = HState.Stopped ∧
    HState.Stopped ≠ HState.None := by
  refine ⟨rfl, rfl, rfl, by decide⟩

/-- **C3, amended**: in a fault-free run, `Remove` on a `Running` host
issues delete-instance then delete-disk and `GetState` afterwards
returns `None`; `Remove` on a disk-only `Stopped` host issues only
delete-disk and `GetState` afterwards returns `None`; but on a host
derived `Stopped` from an instance reporting STOPPING, STOPPED or
TERMINATED, `Remove` likewise issues only delete-disk, the instance
survives, and `GetState` afterwards still returns `Stopped`. -/
theorem c3_amended_remove_traces (w : World) (d : Disk) (i : Instance)
    (hf : w.faults = noFaults) :
    (w.disk = some d → w.inst = some i → i.status = "RUNNING" →
      (Driver.Remove w).1 = .ok () ∧
      (Driver.Remove w).2.trace = w.trace ++
        [.disksGet, .instancesGet, .instancesDelete, .zoneOperationsGet,
         .disksDelete, .zoneOperationsGet] ∧
      (Driver.GetState (Driver.Remove w).2).1 = HState.None) ∧
    (w.disk = some d → w.inst = none →
      (Driver.Remove w).1 = .ok () ∧
      (Driver.Remove w).2.trace = w.trace ++
        [.disksGet, .instancesGet, .disksDelete, .zoneOperationsGet] ∧
      (Driver.GetState (Driver.Remove w).2).1 = HState.None) ∧
    (w.disk = some d → w.inst = some i →
      (i.status = "STOPPING" ∨ i.status = "STOPPED" ∨ i.status = "TERMINATED") →
      (Driver.Remove w).1 = .ok () ∧
      (Driver.Remove w).2.trace = w.trace ++
        [.disksGet, .instancesGet, .disksDelete, .zoneOperationsGet] ∧
      (Driver.GetState (Driver.Remove w).2).1 = HState.Stopped) := by
  obtain ⟨nm, un, dsk, ins, flt, ssh, pk, fc, nip, nfp, tr⟩ := w
  obtain ⟨ist, iip, ifp, isk⟩ := i
  simp only at hf
  subst hf
  refine ⟨?_, ?_, ?_⟩ <;> intro h1 h2
  · intro h3
    simp only at h1 h2 h3
    subst h1; subst h2; subst h3
    refine ⟨rfl, ?_, rfl⟩
    simp [Driver.Remove, Driver.GetState, Driver.instanceStateOf,
      ComputeUtil.disk, ComputeUtil.instance', ComputeUtil.deleteInstance,
      ComputeUtil.deleteDisk, ComputeUtil.waitForOpW, disksGet, instancesGet,
      disksDelete, instancesDelete, noFaults, World.log]
  · simp only at h1 h2
    subst h1; subst h2
    refine ⟨rfl, ?_, rfl⟩
    simp [Driver.Remove, Driver.GetState, Driver.instanceStateOf,
      ComputeUtil.disk, ComputeUtil.instance', ComputeUtil.deleteInstance,
      ComputeUtil.deleteDisk, ComputeUtil.waitForOpW, disksGet, instancesGet,
      disksDelete, instancesDelete, noFaults, World.log]
  · intro h3
    simp only at h1 h2 h3
    subst h1; subst h2
    rcases h3 with h3 | h3 | h3 <;> subst h3 <;> refine ⟨rfl, ?_, rfl⟩ <;>
      simp [Driver.Remove, Driver.GetState, Driver.instanceStateOf,
        ComputeUtil.disk, ComputeUtil.instance', ComputeUtil.deleteInstance,
        ComputeUtil.deleteDisk, ComputeUtil.waitForOpW, disksGet, instancesGet,
        disksDelete, instancesDelete, noFaults, World.log]

/-- Closed instantiation of the amended C3 statement: removing the
running host leaves `GetState` at `None`, removing the TERMINATED one
leaves it at `Stopped`. -/
theorem c3_amended_witness :
    worldRunning.faults = noFaults ∧ worldTerm.faults = noFaults ∧
    (Driver.Remove worldRunning).1 = .ok () ∧
    (Driver.GetState (Driver.Remove worldRunning).2).1 = HState.None ∧
    (Driver.GetState (Driver.Remove worldTerm).2).1 = HState.Stopped :=
  ⟨rfl, rfl,
    ((c3_amended_remove_traces worldRunning diskA instRunning rfl).1 rfl rfl rfl).1,
    ((c3_amended_remove_traces worldRunning diskA instRunning rfl).1 rfl rfl rfl).2.2,
    ((c3_amended_remove_traces worldTerm diskA instTerminated rfl).2.2 rfl rfl
      (Or.inr (Or.inr rfl))).2.2⟩

/-- A running host whose instance-delete call is failing. -/
def worldDelFail : World :=
  { baseWorld with
      disk := some diskA
      inst := some instRunning
      faults := ⟨false, false, false, true, false, false⟩ }

/-- **C9, counterexample**: on a `Running` host whose delete-instance
step fails, `Remove` does *not* return that failure: the delete-instance
call errors, yet `Remove` returns success and the instance is still
there afterwards — the failure was logged and discarded. -/
theorem c9_counterexample :
    (Driver.GetState worldDelFail).1 = HState.Running ∧
    (ComputeUtil.deleteInstance worldDelFail).1
      = .error (.transport "instances delete") ∧
    (Driver.Remove worldDelFail).1 = .ok () ∧
    (Driver.Remove worldDelFail).2.inst = some instRunning :=
  ⟨rfl, rfl, rfl, rfl⟩

/-- **C9, amended**: controller-step failures are surfaced unchanged to
the caller with one exception: during `Remove` on a `Running` host a
delete-instance failure is logged and discarded, `Remove` proceeds to
delete the disk and returns the delete-disk outcome, leaving the
instance in place; the very same failing delete-instance step is
surfaced verbatim by `Stop` and `Restart`, and nothing is retried (the
delete-instance call appears exactly once in the trace). -/
theorem c9_amended_remove_swallows_delete_error (w : World) (i : Instance)
    (d : Disk) (h1 : w.inst = some i) (hs : i.status = "RUNNING")
    (h2 : w.faults.deleteInstanceFail = true)
    (h3 : w.disk = some d) (h4 : w.faults.deleteDiskFail = false) :
    (ComputeUtil.deleteInstance w).1 = .error (.transport "instances delete") ∧
    (Driver.Remove w).1 = .ok () ∧
    (Driver.Remove w).2.inst = some i ∧
    (Driver.Remove w).2.trace = w.trace ++
      [.disksGet, .instancesGet, .instancesDelete, .disksDelete,
       .zoneOperationsGet] ∧
    (Driver.Stop w).1 = .error (.transport "instances delete") ∧
    (Driver.Restart w).1 = .error (.transport "instances delete") := by
  obtain ⟨nm, un, dsk, ins, flt, ssh, pk, fc, nip, nfp, tr⟩ := w
  obtain ⟨f1, f2, f3, f4, f5, f6⟩ := flt
  obtain ⟨ist, iip, ifp, isk⟩ := i
  simp only at h1 h2 h3 h4 hs
  subst h1; subst h2; subst h3; subst h4; subst hs
  refine ⟨rfl, rfl, rfl, ?_, rfl, rfl⟩
  simp [Driver.Remove, Driver.GetState, Driver.instanceStateOf,
    ComputeUtil.disk, ComputeUtil.instance', ComputeUtil.deleteInstance,
    ComputeUtil.deleteDisk, ComputeUtil.waitForOpW, disksGet, instancesGet,
    disksDelete, instancesDelete, World.log]

/-- Closed instantiation of the amended C9 statement at the failing
world. -/
theorem c9_amended_witness :
    worldDelFail.inst = some instRunning ∧
    worldDelFail.faults.deleteInstanceFail = true ∧
    (Driver.Remove worldDelFail).1 = .ok () ∧
    (Driver.Stop worldDelFail).1 = .error (.transport "instances delete") :=
  ⟨rfl, rfl,
    (c9_amended_remove_swallows_delete_error worldDelFail instRunning diskA
      rfl rfl rfl rfl rfl).2.1,
    (c9_amended_remove_swallows_delete_error worldDelFail instRunning diskA
      rfl rfl rfl rfl rfl).2.2.2.2.1⟩

/-- **C7**: in a fault-free run, `createInstance` issues a disk-insert
exactly when no disk exists: with a disk present the trace holds no
`disksInsert` at all, and with the disk absent the disk is inserted and
its operation waited on (`zoneOperationsGet`) strictly before the
instance-insert call. -/
theorem c7_disk_insert_iff_absent (w : World) (k : String)
    (hf : w.faults = noFaults) (hk : w.pubKey = some k)
    (hc : w.failingCmds = []) :
    (∀ d, w.disk = some d →
      (ComputeUtil.createInstance w).2.trace = w.trace ++
        [.disksGet, .instancesInsert, .zoneOperationsGet, .instancesGet,
         .instancesSetMetadata, .zoneOperationsGet]) ∧
    (w.disk = none →
      (ComputeUtil.createInstance w).2.trace = w.trace ++
        [.disksGet, .disksInsert, .zoneOperationsGet, .instancesInsert,
         .zoneOperationsGet, .instancesGet, .instancesSetMetadata,
         .zoneOperationsGet]) ∧
    Call.disksInsert ∉
      [Call.disksGet, Call.instancesInsert, Call.zoneOperationsGet,
       Call.instancesGet, Call.instancesSetMetadata, Call.zoneOperationsGet] := by
  obtain ⟨nm, un, dsk, ins, flt, ssh, pk, fc, nip, nfp, tr⟩ := w
  simp only at hf hk hc
  subst hf; subst hk; subst hc
  refine ⟨?_, ?_, by decide⟩
  · rintro d rfl
    simp [ComputeUtil.createInstance, ComputeUtil.disk, ComputeUtil.instance',
      ComputeUtil.createDisk, ComputeUtil.waitForOpW, ComputeUtil.waitForSSH,
      ComputeUtil.readPubKey, ComputeUtil.configureInstance,
      ComputeUtil.updateDocker, ComputeUtil.executeCommands, disksGet,
      instancesGet, disksInsert, instancesInsert, instancesSetMetadata,
      noFaults, World.log]
  · rintro rfl
    simp [ComputeUtil.createInstance, ComputeUtil.disk, ComputeUtil.instance',
      ComputeUtil.createDisk, ComputeUtil.waitForOpW, ComputeUtil.waitForSSH,
      ComputeUtil.readPubKey, ComputeUtil.configureInstance,
      ComputeUtil.updateDocker, ComputeUtil.executeCommands, disksGet,
      instancesGet, disksInsert, instancesInsert, instancesSetMetadata,
      noFaults, World.log]

/-- Closed instantiation of C7: starting the stopped host (disk
present) issues no disk insert; creating from nothing inserts the disk
first. -/
theorem c7_witness :
    worldStopped.disk = some diskA ∧ baseWorld.disk = none ∧
    (ComputeUtil.createInstance worldStopped).2.trace =
      [.disksGet, .instancesInsert, .zoneOperationsGet, .instancesGet,
       .instancesSetMetadata, .zoneOperationsGet] ∧
    (ComputeUtil.createInstance baseWorld).2.trace =
      [.disksGet, .disksInsert, .zoneOperationsGet, .instancesInsert,
       .zoneOperationsGet, .instancesGet, .instancesSetMetadata,
       .zoneOperationsGet] :=
  ⟨rfl, rfl,
    (c7_disk_insert_iff_absent worldStopped "ssh-rsa AAAA" rfl rfl rfl).1 diskA rfl,
    (c7_disk_insert_iff_absent baseWorld "ssh-rsa AAAA" rfl rfl rfl).2.1 rfl⟩

/-- **C8**: in a fault-free run, `Restart` on a `Running` host issues
exactly one delete-instance followed (after its operation wait) by
exactly one create-instance, never issues a delete-disk, and leaves the
disk unchanged. -/
theorem c8_restart_trace (w : World) (i : Instance) (d : Disk) (k : String)
    (hi : w.inst = some i) (hs : i.status = "RUNNING")
    (hd : w.disk = some d) (hf : w.faults = noFaults)
    (hk : w.pubKey = some k) (hc : w.failingCmds = []) :
    (Driver.Restart w).1 = .ok () ∧
    (Driver.Restart w).2.trace = w.trace ++
      [.instancesDelete, .zoneOperationsGet, .disksGet, .instancesInsert,
       .zoneOperationsGet, .instancesGet, .instancesSetMetadata,
       .zoneOperationsGet] ∧
    ([Call.instancesDelete, .zoneOperationsGet, .disksGet, .instancesInsert,
      .zoneOperationsGet, .instancesGet, .instancesSetMetadata,
      .zoneOperationsGet].count Call.instancesDelete = 1 ∧
     [Call.instancesDelete, .zoneOperationsGet, .disksGet, .instancesInsert,
      .zoneOperationsGet, .instancesGet, .instancesSetMetadata,
      .zoneOperationsGet].count Call.instancesInsert = 1 ∧
     [Call.instancesDelete, .zoneOperationsGet, .disksGet, .instancesInsert,
      .zoneOperationsGet, .instancesGet, .instancesSetMetadata,
      .zoneOperationsGet].count Call.disksDelete = 0) ∧
    (Driver.Restart w).2.disk = w.disk := by
  obtain ⟨nm, un, dsk, ins, flt, ssh, pk, fc, nip, nfp, tr⟩ := w
  obtain ⟨ist, iip, ifp, isk⟩ := i
  simp only at hi hs hd hf hk hc
  subst hi; subst hs; subst hd; subst hf; subst hk; subst hc
  refine ⟨rfl, ?_, by decide, rfl⟩
  simp [Driver.Restart, ComputeUtil.deleteInstance, ComputeUtil.createInstance,
    ComputeUtil.disk, ComputeUtil.instance', ComputeUtil.createDisk,
    ComputeUtil.waitForOpW, ComputeUtil.waitForSSH, ComputeUtil.readPubKey,
    ComputeUtil.configureInstance, ComputeUtil.updateDocker,
    ComputeUtil.executeCommands, disksGet, instancesGet, disksInsert,
    instancesInsert, instancesDelete, instancesSetMetadata, noFaults,
    World.log]

/-- Closed instantiation of C8 at the running world. -/
theorem c8_witness :
    worldRunning.inst = some instRunning ∧
    (Driver.Restart worldRunning).1 = .ok () ∧
    (Driver.Restart worldRunning).2.disk = worldRunning.disk :=
  ⟨rfl,
    (c8_restart_trace worldRunning instRunning diskA "ssh-rsa AAAA"
      rfl rfl rfl rfl rfl rfl).1,
    (c8_restart_trace worldRunning instRunning diskA "ssh-rsa AAAA"
      rfl rfl rfl rfl rfl rfl).2.2.2⟩

/-- **C10**: `createInstance` discards the outcome of the SSH
reachability wait: with the TCP wait failing (`sshOk = false`) it still
issues the SSH-key metadata-set call and completes successfully, and
its result and API trace are identical to the run in which the wait
succeeds. -/
theorem c10_ssh_wait_discarded (w : World) (k : String)
    (hssh : w.sshOk = false) (hf : w.faults = noFaults)
    (hk : w.pubKey = some k) (hc : w.failingCmds = []) :
    Call.instancesSetMetadata ∈ (ComputeUtil.createInstance w).2.trace ∧
    (ComputeUtil.createInstance w).1 = .ok () ∧
    (ComputeUtil.createInstance w).1
      = (ComputeUtil.createInstance { w with sshOk := true }).1 ∧
    (ComputeUtil.createInstance w).2.trace
      = (ComputeUtil.createInstance { w with sshOk := true }).2.trace := by
  obtain ⟨nm, un, dsk, ins, flt, ssh, pk, fc, nip, nfp, tr⟩ := w
  simp only at hssh hf hk hc
  subst hssh; subst hf; subst hk; subst hc
  cases dsk <;>
    simp [ComputeUtil.createInstance, ComputeUtil.disk, ComputeUtil.instance',
      ComputeUtil.createDisk, ComputeUtil.waitForOpW, ComputeUtil.waitForSSH,
      ComputeUtil.readPubKey, ComputeUtil.configureInstance,
      ComputeUtil.updateDocker, ComputeUtil.executeCommands, disksGet,
      instancesGet, disksInsert, instancesInsert, instancesSetMetadata,
      noFaults, World.log]

/-- Closed instantiation of C10 at the unreachable-host world. -/
theorem c10_witness :
    ({ baseWorld with sshOk := false } : World).sshOk = false ∧
    Call.instancesSetMetadata ∈
      (ComputeUtil.createInstance { baseWorld with sshOk := false }).2.trace ∧
    (ComputeUtil.createInstance { baseWorld with sshOk := false }).1 = .ok () :=
  ⟨rfl,
    (c10_ssh_wait_discarded { baseWorld with sshOk := false } "ssh-rsa AAAA"
      rfl rfl rfl rfl).1,
    (c10_ssh_wait_discarded { baseWorld with sshOk := false } "ssh-rsa AAAA"
      rfl rfl rfl rfl).2.1⟩
